import Mathlib

/-!
Verification development for `src/LangChainKaltura/KalturaCaptionLoader.py`.

The Python source is shallowly embedded below.  Times are kept in
milliseconds (`Nat`), matching `pysrt.SubRipTime.ordinal`; the chunk
duration `chunkMinutes` is an `Int` (Python `int`, which may be zero or
negative since the constructor performs no validation of it).

External collaborators (the Kaltura API client, HTTP transport, and the
pysrt SRT parser) are passed in as a record of oracle functions; the
pysrt operations the loader actually relies on (`SubRipFile.slice`,
`SubRipFile.text`, indexing, `SubRipTime` ordinals) are embedded
faithfully from the pysrt implementation:
  * `slice(starts_after=A, ends_before=B)` keeps exactly the items with
    `item.end < B` and `item.start > A` (both comparisons strict; the
    `ends_before` comparison is on the item END time), because pysrt
    filters `i for i in data if i.end < ends_before` and then
    `i for i in data if i.start > starts_after`;
  * `SubRipTime(minutes=m).ordinal = m * 60000` milliseconds;
  * `SubRipFile.text` joins the item text fields with a newline.
-/

namespace LangChainKaltura

/-- One pysrt subtitle item: start/end offsets in milliseconds
(`SubRipTime.ordinal`) and its text.  (`end` is a Lean keyword, hence
the field name `end_`.) -/
structure SubRipItem where
  start : Nat
  end_ : Nat
  text : String
deriving DecidableEq, Repr

/-- `KalturaCaptionType` constants from the Caption plugin of the
Kaltura client
(only the tags matter here). -/
inductive KalturaCaptionType where
  | SRT
  | DFXP
  | WEBVTT
  | CAP
  | SCC
deriving DecidableEq, Repr

/-- A Kaltura caption asset: id, language code (original case), and
format tag, as consumed by `fetchMediaCaption`. -/
structure CaptionAsset where
  id : String
  languageCode : String
  format : KalturaCaptionType
deriving DecidableEq, Repr

/-- A Kaltura media entry (id and display name), as consumed by
`fetchMediaCaption`. -/
structure MediaEntry where
  id : String
  name : String
deriving DecidableEq, Repr

/-- The `FilterType` enum of the loader. -/
inductive FilterType where
  | CATEGORY
  | MEDIAID
deriving DecidableEq, Repr

/-- The media filter built by `setMediaEntry` / `setMediaCategory`
(`KalturaMediaEntryFilter` with either `idEqual` or
`categoriesMatchAnd` set). -/
inductive MediaFilter where
  | idEqual : String → MediaFilter
  | categoriesMatchAnd : String → MediaFilter
deriving DecidableEq, Repr

/-- ASCII lower-casing of a string, written structurally over the
character list (the Python `str.lower` restricted to the ASCII language
codes the loader compares). -/
def lowerStr (s : String) : String :=
  String.mk (s.data.map Char.toLower)

/-- The runtime state of `self.languages`: either the `None` sentinel
("all languages") or the REMAINING items of the one-shot
`map(str.lower, languages)` iterator built in `__init__`.  The Python
`x in iterator` consumes the iterator, so the remaining-items list is
genuine mutable state threaded through the embedding.  Items are stored
as given; `str.lower` is applied as each item is pulled, exactly as the
lazy `map` does. -/
inductive Languages where
  | all : Languages
  | iter : List String → Languages
deriving DecidableEq, Repr

/-- The Python `needle in iterator` test: pull items (applying the mapped
`str.lower`) until one equals `needle`; return whether it was found and
the items left unconsumed in the iterator. -/
def consumeContains (needle : String) : List String → Bool × List String
  | [] => (false, [])
  | x :: xs => if lowerStr x = needle then (true, xs) else consumeContains needle xs

/-- Lines 183–187 of the source: the language filter applied to one
caption asset.  When `self.languages` is the `None` sentinel no
membership test runs; otherwise the test consumes the iterator.
Returns (retain?, languages state afterwards). -/
def languageCheck (a : CaptionAsset) : Languages → Bool × Languages
  | Languages.all => (true, Languages.all)
  | Languages.iter items =>
    let r := consumeContains (lowerStr a.languageCode) items
    (r.1, Languages.iter r.2)

/-- pysrt `SubRipFile.slice(ends_before=..., starts_after=...)` with
both bounds given in milliseconds: keeps items with `end < endsBefore`
and `start > startsAfter`, both strict, applied in the pysrt order.
(The dict arguments the loader passes are non-empty dicts, hence always
truthy, so both filters always apply — even a minutes value of 0.) -/
def pysrtSlice (captions : List SubRipItem) (endsBefore startsAfter : Int) :
    List SubRipItem :=
  (captions.filter (fun i => decide ((i.end_ : Int) < endsBefore))).filter
    (fun i => decide ((i.start : Int) > startsAfter))

/-- Lines 200–203 of the source: the slice taken at window `index`,
`captions.slice` with `starts_after` at `D*index` minutes and
`ends_before` at `D*index + D` minutes, where
`SubRipTime(minutes=m).ordinal = m * 60000`. -/
def sliceAt (D : Int) (captions : List SubRipItem) (index : Nat) : List SubRipItem :=
  let start : Int := D * (index : Int)
  pysrtSlice captions ((start + D) * 60000) (start * 60000)

/-- Largest start offset among the cues (0 for no cues); used only to
bound the fuel of the loop embedding below. -/
def maxStart (captions : List SubRipItem) : Nat :=
  captions.foldr (fun i acc => max i.start acc) 0

/-- Fuel that provably suffices for the `while` loop of lines 199–218:
the loop always stops at or before window index `maxStart/60000 + 1`
(see `sliceAt_eq_nil_of_le` and `chunkSections_spec`). -/
def chunkFuel (captions : List SubRipItem) : Nat :=
  maxStart captions / 60000 + 2

/-- The `while (captionsSection := captions.slice(...))` loop of
lines 199–218, abstracted over the per-window document construction:
starting at window `index`, while the slice at the current window is
non-empty (a non-empty pysrt file is truthy), record a section and
advance; stop at the first empty slice.  The fuel argument is only a
Lean totality device; `chunkFuel` makes it never bind. -/
def chunkLoop (D : Int) (captions : List SubRipItem) :
    Nat → Nat → List (List SubRipItem)
  | 0, _ => []
  | fuel + 1, index =>
    let sec := sliceAt D captions index
    if sec = [] then [] else sec :: chunkLoop D captions fuel (index + 1)

/-- The complete sequence of (non-empty) cue selections the loop emits,
in window order, starting at index 0. -/
def chunkSections (D : Int) (captions : List SubRipItem) : List (List SubRipItem) :=
  chunkLoop D captions (chunkFuel captions) 0

/-- pysrt `SubRipFile.text`: the item texts joined with newlines. -/
def srtText (sec : List SubRipItem) : String :=
  String.intercalate "\n" (sec.map SubRipItem.text)

/-- Placeholder item for `headD`; the loop guard guarantees every
emitted section is non-empty, so it is never the value actually read
(mirrors the Python `captionsSection[0]`, which would raise on empty). -/
def nullItem : SubRipItem := { start := 0, end_ := 0, text := "" }

/-- Zero-padded two-digit rendering used by `str(SubRipTime)`. -/
def pad2 (n : Nat) : String :=
  (if n < 10 then "0" else "") ++ toString n

/-- `str(SubRipTime)[0:-4]` for an ordinal of `ms` milliseconds:
`HH:MM:SS,mmm` with the 4 trailing characters (`,mmm`) sliced off. -/
def timeNoMs (ms : Nat) : String :=
  pad2 (ms / 3600000) ++ ":" ++ pad2 (ms / 60000 % 60) ++ ":" ++ pad2 (ms / 1000 % 60)

/-- Opening and closing curly brace characters (written by code point
to keep them out of string literals). -/
def lbrace : Char := Char.ofNat 123

def rbrace : Char := Char.ofNat 125

/-- Value substituted for a format field name. `str.format` raises on a
field other than the two the docstring requires the template to contain
("It must contain the fields mediaId and startSeconds ONLY"); an
unknown field is mapped to the empty string here and never exercised. -/
def fieldValue (mediaId startSeconds : String) (fieldName : List Char) : String :=
  if fieldName = "mediaId".data then mediaId
  else if fieldName = "startSeconds".data then startSeconds
  else ""

/-- `str.format` restricted to the URL templates of the loader: scan the
template; between a `\x7b` and the next `\x7d` a field name is read and
replaced by its value.  `mode = none` is plain-text scanning;
`mode = some acc` is in-field scanning with `acc` the field name so
far. -/
def formatAux (mediaId startSeconds : String) :
    Option (List Char) → List Char → List Char
  | _, [] => []
  | none, c :: cs =>
    if c = lbrace then formatAux mediaId startSeconds (some []) cs
    else c :: formatAux mediaId startSeconds none cs
  | some acc, c :: cs =>
    if c = rbrace then
      (fieldValue mediaId startSeconds acc).data ++ formatAux mediaId startSeconds none cs
    else formatAux mediaId startSeconds (some (acc ++ [c])) cs

/-- Line 209–211 of the source:
`urlTemplate.format(mediaId=..., startSeconds=timestamp.ordinal // 1000)`. -/
def formatUrl (template mediaId : String) (startSeconds : Nat) : String :=
  String.mk (formatAux mediaId (toString startSeconds) none template.data)

/-- The LangChain `Document` built for one chunk (its `page_content`
and the metadata dict of lines 205–217, flattened into fields). -/
structure Document where
  page_content : String
  source : String
  filename : String
  media_id : String
  timestamp : String
  caption_id : String
  language_code : String
  caption_format : String
deriving DecidableEq, Repr

/-- Lines 204–217: the `Document` appended for a non-empty window
selection `sec`.  `timestamp := captionsSection[0].start`. -/
def mkDocument (urlTemplate : String) (m : MediaEntry) (a : CaptionAsset)
    (sec : List SubRipItem) : Document :=
  let timestamp := (sec.headD nullItem).start
  { page_content := srtText sec
    source := formatUrl urlTemplate m.id (timestamp / 1000)
    filename := m.name
    media_id := m.id
    timestamp := timeNoMs timestamp
    caption_id := a.id
    language_code := a.languageCode
    caption_format := "SRT" }

/-- The loader state after `__init__` (client/session handles are
infrastructure glue, not modelled; `mediaFilter` is always assigned by
`__init__` via `setMediaEntry`/`setMediaCategory`, so the load-time
`mediaFilter is None` check is unreachable through `initLoader`). -/
structure KalturaCaptionLoader where
  mediaFilter : MediaFilter
  chunkMinutes : Int
  urlTemplate : String
  languages : Languages
deriving DecidableEq, Repr

/-- The external collaborators the loader calls: the media list the
configured filter matches (`client.media.list`), per-entry caption
asset listing (`client.caption.captionAsset.list`), URL resolution
(`client.caption.captionAsset.getUrl`), HTTP fetch (`requests.get`),
and the SRT parser (`pysrt.from_string`). -/
structure Collaborators where
  mediaList : List MediaEntry
  captionAssetsOf : String → List CaptionAsset
  getUrl : String → String
  httpGet : String → String
  parseSrt : String → List SubRipItem

/-- Lines 194–197: resolve the caption URL and fetch + parse its
contents.  Note there is no validation between resolution and fetch:
whatever string `getUrl` returns is passed to the HTTP fetch. -/
def trackCaptions (collab : Collaborators) (a : CaptionAsset) : List SubRipItem :=
  collab.parseSrt (collab.httpGet (collab.getUrl a.id))

/-- The documents the windowing loop emits for one SRT caption asset. -/
def trackDocuments (L : KalturaCaptionLoader) (collab : Collaborators)
    (m : MediaEntry) (a : CaptionAsset) : List Document :=
  (chunkSections L.chunkMinutes (trackCaptions collab a)).map
    (mkDocument L.urlTemplate m a)

/-- The `for captionAsset in captionAssets.objects` loop of
lines 177–218: language filter (which consumes the languages iterator),
then the SRT format gate, then windowing.  Returns the accumulated
documents and the languages state afterwards. -/
def processAssets (L : KalturaCaptionLoader) (collab : Collaborators)
    (m : MediaEntry) : List CaptionAsset → Languages → List Document × Languages
  | [], langs => ([], langs)
  | a :: rest, langs =>
    let r := languageCheck a langs
    if r.1 = false then processAssets L collab m rest r.2
    else if a.format = KalturaCaptionType.SRT then
      let docs := trackDocuments L collab m a
      let tail_ := processAssets L collab m rest r.2
      (docs ++ tail_.1, tail_.2)
    else processAssets L collab m rest r.2

/-- `fetchMediaCaption` for one media entry. -/
def fetchMediaCaption (L : KalturaCaptionLoader) (collab : Collaborators)
    (m : MediaEntry) (langs : Languages) : List Document × Languages :=
  processAssets L collab m (collab.captionAssetsOf m.id) langs

/-- `load()`: fold `fetchMediaCaption` over the media entries, threading
the (mutated-in-place in Python) languages state. -/
def loadState (L : KalturaCaptionLoader) (collab : Collaborators) :
    List Document × Languages :=
  collab.mediaList.foldl
    (fun acc m =>
      let r := fetchMediaCaption L collab m acc.2
      (acc.1 ++ r.1, r.2))
    ([], L.languages)

/-- The document list `load()` returns. -/
def loadDocs (L : KalturaCaptionLoader) (collab : Collaborators) : List Document :=
  (loadState L collab).1

/-- `__init__` (lines 102–145), with the session/network glue elided:
the validations it performs, in source order, and the loader state it
stores.  The Python `not all((partnerId, appTokenId, appTokenValue))` is
emptiness of any of the three strings; the `filterType` type check is
enforced by the Lean types.  NOTE: `chunkMinutes` is stored via
`int(chunkMinutes)` with no validation whatsoever. -/
def initLoader (partnerId appTokenId appTokenValue : String)
    (filterType : FilterType) (filterValue urlTemplate : String)
    (languages : Option (List String)) (chunkMinutes : Int) :
    Except String KalturaCaptionLoader :=
  if partnerId = "" ∨ appTokenId = "" ∨ appTokenValue = "" then
    Except.error "partnerId and appToken* parameters must be specified"
  else if filterValue = "" then
    Except.error "filterValue must be specified"
  else if urlTemplate = "" then
    Except.error "urlFormat must be specified"
  else
    Except.ok
      { mediaFilter :=
          match filterType with
          | FilterType.CATEGORY => MediaFilter.categoriesMatchAnd filterValue
          | FilterType.MEDIAID => MediaFilter.idEqual filterValue
        chunkMinutes := chunkMinutes
        urlTemplate := urlTemplate
        languages :=
          match languages with
          | none => Languages.all
          | some l => Languages.iter l }

/-! ## Helper lemmas about the windowing loop -/

/-- Membership in the slice at window `index`: exactly the cues of the
track whose END is strictly below the window upper bound and whose
START is strictly above the window lower bound (pysrt `slice`
semantics, in milliseconds). -/
theorem mem_sliceAt {D : Int} {c : List SubRipItem} {i : Nat} {x : SubRipItem} :
    x ∈ sliceAt D c i ↔
      x ∈ c ∧ (x.end_ : Int) < (D * (i : Int) + D) * 60000 ∧
        D * (i : Int) * 60000 < (x.start : Int) := by
  simp only [sliceAt, pysrtSlice, List.mem_filter, decide_eq_true_eq]
  tauto

theorem start_le_maxStart {x : SubRipItem} {c : List SubRipItem} (h : x ∈ c) :
    x.start ≤ maxStart c := by
  induction c with
  | nil => cases h
  | cons y ys ih =>
    rcases List.mem_cons.mp h with h | h
    · subst h; exact le_max_left _ _
    · exact le_trans (ih h) (le_max_right _ _)

/-- Once the window lower bound has reached the last cue start, the
slice is empty (no cue can start strictly later). -/
theorem sliceAt_eq_nil_of_le {D : Int} {c : List SubRipItem} {i : Nat}
    (h : (maxStart c : Int) ≤ D * (i : Int) * 60000) : sliceAt D c i = [] := by
  rw [List.eq_nil_iff_forall_not_mem]
  intro x hx
  rw [mem_sliceAt] at hx
  have h1 : (x.start : Int) ≤ (maxStart c : Int) :=
    Int.ofNat_le.mpr (start_le_maxStart hx.1)
  have h2 := hx.2.2
  linarith

/-- Characterization of the `while` loop from any start index: as soon
as some window within the fuel budget is empty, the loop emits exactly
the slices of a contiguous run of non-empty windows and stops at the
first empty one. -/
theorem chunkLoop_ranges (D : Int) (c : List SubRipItem) :
    ∀ f i : Nat, (∃ j, j < f ∧ sliceAt D c (i + j) = []) →
      ∃ k, chunkLoop D c f i = (List.range k).map (fun t => sliceAt D c (i + t)) ∧
        (∀ t, t < k → sliceAt D c (i + t) ≠ []) ∧ sliceAt D c (i + k) = [] := by
  intro f
  induction f with
  | zero =>
    intro i h
    obtain ⟨j, hj, _⟩ := h
    omega
  | succ f ih =>
    intro i h
    obtain ⟨j, hj, hje⟩ := h
    by_cases hsec : sliceAt D c i = []
    · refine ⟨0, ?_, ?_, ?_⟩
      · simp [chunkLoop, hsec]
      · intro t ht; omega
      · simpa using hsec
    · have hj0 : j ≠ 0 := by
        intro h0
        exact hsec (by simpa [h0] using hje)
      obtain ⟨j', rfl⟩ : ∃ j', j = j' + 1 := ⟨j - 1, by omega⟩
      have hnext : ∃ j₂, j₂ < f ∧ sliceAt D c ((i + 1) + j₂) = [] := by
        refine ⟨j', by omega, ?_⟩
        have : (i + 1) + j' = i + (j' + 1) := by omega
        rw [this]; exact hje
      obtain ⟨k, hk1, hk2, hk3⟩ := ih (i + 1) hnext
      refine ⟨k + 1, ?_, ?_, ?_⟩
      · have hstep : chunkLoop D c (f + 1) i =
            sliceAt D c i :: chunkLoop D c f (i + 1) := by
          simp [chunkLoop, hsec]
        have hfun : ((fun t => sliceAt D c (i + t)) ∘ Nat.succ) =
            fun t => sliceAt D c (i + 1 + t) := by
          funext t
          show sliceAt D c (i + Nat.succ t) = sliceAt D c (i + 1 + t)
          congr 1
          omega
        rw [hstep, hk1, List.range_succ_eq_map, List.map_cons, List.map_map, hfun]
        simp
      · intro t ht
        match t with
        | 0 => simpa using hsec
        | t' + 1 =>
          have : i + (t' + 1) = (i + 1) + t' := by omega
          rw [this]
          exact hk2 t' (by omega)
      · have : i + (k + 1) = (i + 1) + k := by omega
        rw [this]; exact hk3

/-- For a positive chunk duration the fuel `chunkFuel` never binds: the
output of the loop is exactly the slices of the non-empty windows
`0, 1, …, k-1` up to the first empty window `k`. -/
theorem chunkSections_spec (D : Int) (hD : 1 ≤ D) (c : List SubRipItem) :
    ∃ k, chunkSections D c = (List.range k).map (sliceAt D c) ∧
      (∀ t, t < k → sliceAt D c t ≠ []) ∧ sliceAt D c k = [] := by
  have hlt : maxStart c < (maxStart c / 60000 + 1) * 60000 := by omega
  have hempty : sliceAt D c (maxStart c / 60000 + 1) = [] := by
    apply sliceAt_eq_nil_of_le
    have h1 : (maxStart c : Int) < ((maxStart c / 60000 + 1 : Nat) : Int) * 60000 := by
      exact_mod_cast hlt
    have h2 : (0 : Int) ≤ ((maxStart c / 60000 + 1 : Nat) : Int) * 60000 := by positivity
    nlinarith
  obtain ⟨k, h1, h2, h3⟩ :=
    chunkLoop_ranges D c (chunkFuel c) 0
      ⟨maxStart c / 60000 + 1, by simp [chunkFuel], by simpa using hempty⟩
  refine ⟨k, ?_, ?_, ?_⟩
  · rw [chunkSections, h1]
    apply List.map_congr_left
    intro t _
    simp
  · intro t ht
    simpa using h2 t ht
  · simpa using h3

/-- With a non-positive chunk duration the very first slice is empty
(its upper bound is `≤ 0` while cue ends are `≥ 0`), so the loop exits
at once and no chunk is ever produced. -/
theorem chunkSections_eq_nil_of_nonpos {D : Int} (hD : D ≤ 0)
    (c : List SubRipItem) : chunkSections D c = [] := by
  have h0 : sliceAt D c 0 = [] := by
    rw [List.eq_nil_iff_forall_not_mem]
    intro x hx
    rw [mem_sliceAt] at hx
    have h1 : (0 : Int) ≤ (x.end_ : Int) := Int.ofNat_nonneg _
    have h2 := hx.2.1
    push_cast at h2
    nlinarith
  have hfuel : chunkFuel c = (maxStart c / 60000 + 1) + 1 := rfl
  rw [chunkSections, hfuel]
  simp [chunkLoop, h0]

/-- Every section the loop emits is a non-empty slice at some window
index (the loop guard). -/
theorem mem_chunkLoop (D : Int) (c : List SubRipItem) :
    ∀ f i s, s ∈ chunkLoop D c f i → s ≠ [] ∧ ∃ t, s = sliceAt D c t := by
  intro f
  induction f with
  | zero => intro i s hs; simp [chunkLoop] at hs
  | succ f ih =>
    intro i s hs
    by_cases hsec : sliceAt D c i = []
    · simp [chunkLoop, hsec] at hs
    · rw [show chunkLoop D c (f + 1) i = sliceAt D c i :: chunkLoop D c f (i + 1) by
        simp [chunkLoop, hsec]] at hs
      rcases List.mem_cons.mp hs with h | h
      · exact ⟨h ▸ hsec, i, h⟩
      · exact ih (i + 1) s h

theorem mem_chunkSections {D : Int} {c : List SubRipItem} {s : List SubRipItem}
    (hs : s ∈ chunkSections D c) : s ≠ [] ∧ ∃ t, s = sliceAt D c t :=
  mem_chunkLoop D c (chunkFuel c) 0 s hs

/-! ## Concrete instances used by witnesses and counterexamples -/

/-- Two well-formed cues at 0:30–0:32 and 3:10–3:12 (the example of the
spec: both windows of a 2-minute chunking are non-empty). -/
def cuePair : List SubRipItem :=
  [{ start := 30000, end_ := 32000, text := "first" },
   { start := 190000, end_ := 192000, text := "second" }]

/-- Two cues at 0:30–0:32 and 5:10–5:12: with a 2-minute chunking,
window 1 (from 2min to 4min) holds no cue while window 2 holds the
second cue. -/
def cueGap : List SubRipItem :=
  [{ start := 30000, end_ := 32000, text := "first" },
   { start := 310000, end_ := 312000, text := "second" }]

/-- A cue starting exactly at offset 0 and a cue spanning the window
boundary at 2 minutes (1:00–3:00). -/
def cueEdge : List SubRipItem :=
  [{ start := 0, end_ := 1000, text := "at zero" },
   { start := 60000, end_ := 180000, text := "spans boundary" }]

def media7 : MediaEntry := { id := "0_abc123", name := "Lecture 1" }

def asset7 : CaptionAsset :=
  { id := "cap7", languageCode := "en", format := KalturaCaptionType.SRT }

def cue7 : SubRipItem := { start := 125700, end_ := 127000, text := "lorem" }

def cue8a : SubRipItem := { start := 5000, end_ := 7000, text := "hello" }

def cue8b : SubRipItem := { start := 110000, end_ := 112000, text := "world" }

/-! ## The claims -/

/-- C1, counterexample: with chunk duration 2 > 0 and the monotone cue
sequence `cueEdge`, both cue start offsets lie within the span of the
track, yet NO chunk at all is emitted: the cue starting exactly at
`0·D` fails the strict `start > 0` filter of pysrt, the
boundary-spanning cue fails the `end < (i+1)·D` filter, so window 0 is
empty and the loop stops.  Both cues are lost, refuting "each cue …
appears in the contributing cue set of exactly one emitted chunk: no
cue is lost". -/
theorem c1_counterexample : chunkSections 2 cueEdge = [] := by decide

/-- C1, amended: the half of the claim that survives is that no cue is
ever DUPLICATED across emitted chunks — for a positive chunk duration
and well-formed cues (start ≤ end) the contributing cue sets of the
emitted chunks are pairwise disjoint.  Cues can however be lost (see
the counterexample), so the "no cue lost" half is dropped. -/
theorem c1_no_cue_duplicated (D : Int) (hD : 1 ≤ D) (c : List SubRipItem)
    (hwf : ∀ x ∈ c, x.start ≤ x.end_) :
    (chunkSections D c).Pairwise (fun s t => ∀ x, x ∈ s → x ∉ t) := by
  obtain ⟨k, heq, -, -⟩ := chunkSections_spec D hD c
  rw [heq]
  refine List.Pairwise.map _ ?_ (List.pairwise_lt_range k)
  intro i j hij x hxi hxj
  rw [mem_sliceAt] at hxi hxj
  have hse : (x.start : Int) ≤ (x.end_ : Int) := Int.ofNat_le.mpr (hwf x hxi.1)
  have h1 := hxi.2.1
  have h2 := hxj.2.2
  have hij2 : (i : Int) + 1 ≤ (j : Int) := by exact_mod_cast hij
  have h3 : D * ((i : Int) + 1) ≤ D * (j : Int) :=
    mul_le_mul_of_nonneg_left hij2 (by linarith)
  nlinarith

/-- C1, witness for the amended theorem at the concrete pair of cues at
0:30 and 3:10 with a 2-minute chunk duration. -/
theorem c1_no_cue_duplicated_witness :
    (1 ≤ (2 : Int)) ∧ (∀ x ∈ cuePair, x.start ≤ x.end_) ∧
      (chunkSections 2 cuePair).Pairwise (fun s t => ∀ x, x ∈ s → x ∉ t) :=
  ⟨by norm_num, by decide, c1_no_cue_duplicated 2 (by norm_num) cuePair (by decide)⟩

/-- C2, counterexample: cues at 0:30 and 5:10 with a 2-minute chunk
duration.  Window 1 (from 2min to 4min) selects no cue and the loop
STOPS there — even though window 2 still holds the second cue, and even
though `1·D = 2min` does not exceed the last cue start offset 5:10 —
so only one chunk is emitted, not two.  This refutes "a window … with
no cue start produces no chunk but does not stop emission". -/
theorem c2_counterexample :
    chunkSections 2 cueGap = [[{ start := 30000, end_ := 32000, text := "first" }]] ∧
      sliceAt 2 cueGap 2 = [{ start := 310000, end_ := 312000, text := "second" }] := by
  decide

/-- C2, amended: the loop terminates at the FIRST window index whose
cue selection is empty; the emitted chunks therefore correspond to the
contiguous window indices `0 … k-1` with `k` the first empty window
(window indices are never sparse; cues lying beyond an empty window are
dropped).  The specific pair of cues at 0:30 and 3:10 with a 2-minute
duration does yield exactly 2 chunks, since neither window 0 nor
window 1 is empty — see the witness. -/
theorem c2_stops_at_first_empty_window (D : Int) (hD : 1 ≤ D)
    (c : List SubRipItem) :
    ∃ k, chunkSections D c = (List.range k).map (sliceAt D c) ∧
      (∀ t, t < k → sliceAt D c t ≠ []) ∧ sliceAt D c k = [] :=
  chunkSections_spec D hD c

/-- C2, witness: the example of the claim (cues at 0:30 and 3:10,
2-minute chunks) emits exactly the two singleton sections, and the
amended theorem applies to it. -/
theorem c2_stops_at_first_empty_window_witness :
    (1 ≤ (2 : Int)) ∧
      chunkSections 2 cuePair =
        [[{ start := 30000, end_ := 32000, text := "first" }],
         [{ start := 190000, end_ := 192000, text := "second" }]] ∧
      (∃ k, chunkSections 2 cuePair = (List.range k).map (sliceAt 2 cuePair) ∧
        (∀ t, t < k → sliceAt 2 cuePair t ≠ []) ∧ sliceAt 2 cuePair k = []) :=
  ⟨by norm_num, by decide, c2_stops_at_first_empty_window 2 (by norm_num) cuePair⟩

/-- Modelled from the spec (§4.3): the window-membership rule as the
spec words it — "Select every cue whose start offset is `>= i·D` and
`< (i+1)·D`", membership by start offset only.  Declared solely to be
compared against the source-derived `sliceAt`. -/
def specWindowCues (D : Int) (c : List SubRipItem) (i : Nat) : List SubRipItem :=
  c.filter (fun x => decide (D * (i : Int) * 60000 ≤ (x.start : Int)) &&
    decide ((x.start : Int) < (D * (i : Int) + D) * 60000))

/-- C3, counterexample: for D = 2 and the track `cueEdge`, the spec
window-0 cue set contains both cues (their starts 0:00 and 1:00 lie in
[0, 2min)), but the code selects NEITHER: the start comparison of pysrt
is strict (a cue starting exactly at `i·D` is dropped) and the second
filter constrains the cue END (`end < (i+1)·D`), so the
boundary-spanning cue is excluded from window 0 — and from window 1 as
well, i.e. from every window. -/
theorem c3_counterexample :
    specWindowCues 2 cueEdge 0 = cueEdge ∧ sliceAt 2 cueEdge 0 = [] ∧
      sliceAt 2 cueEdge 1 = [] := by decide

/-- C3, amended: the cue set of window `i` is exactly the cues of the
track whose START offset is strictly greater than `i·D` and whose END
offset is strictly less than `(i+1)·D`.  Membership thus depends on
both offsets: a cue starting exactly at `i·D` is excluded, and a cue
ending at or after `(i+1)·D` is excluded from window `i` (rather than
being attributed to it). -/
theorem c3_window_membership (D : Int) (c : List SubRipItem) (i : Nat)
    (x : SubRipItem) :
    x ∈ sliceAt D c i ↔
      x ∈ c ∧ D * (i : Int) * 60000 < (x.start : Int) ∧
        (x.end_ : Int) < (D * (i : Int) + D) * 60000 := by
  rw [mem_sliceAt]; tauto

/-- C4, counterexample: constructing the loader with `chunkMinutes = 0`
and otherwise valid parameters is NOT rejected — `__init__` performs no
validation of `chunkMinutes` and returns normally, refuting "the
configuration is rejected with a ConfigurationError before any
windowing begins". -/
theorem c4_counterexample :
    initLoader "p" "tok" "secret" FilterType.MEDIAID "0_abc123" "u" none 0 =
      Except.ok
        { mediaFilter := MediaFilter.idEqual "0_abc123", chunkMinutes := 0,
          urlTemplate := "u", languages := Languages.all } := by rfl

/-- C4, amended: a non-positive `chunkMinutes` is accepted by the
constructor without any error; the second half of the claim does hold —
no chunk is ever produced under such a configuration, because the
window upper bound is then non-positive while cue ends are
non-negative, so the first selection is empty and the loop exits at
once. -/
theorem c4_nonpositive_accepted_no_chunks (p t v : String) (ft : FilterType)
    (fv u : String) (langs : Option (List String)) (D : Int)
    (captions : List SubRipItem) (hp : p ≠ "") (ht : t ≠ "") (hv : v ≠ "")
    (hf : fv ≠ "") (hu : u ≠ "") (hD : D ≤ 0) :
    (∃ L, initLoader p t v ft fv u langs D = Except.ok L ∧ L.chunkMinutes = D) ∧
      chunkSections D captions = [] := by
  constructor
  · have hcond : ¬(p = "" ∨ t = "" ∨ v = "") := by simp [hp, ht, hv]
    simp only [initLoader, if_neg hcond, if_neg hf, if_neg hu]
    exact ⟨_, rfl, rfl⟩
  · exact chunkSections_eq_nil_of_nonpos hD captions

/-- C4, witness for the amended theorem: `chunkMinutes = -3` with valid
credentials is accepted and produces no chunks on the `cuePair`
track. -/
theorem c4_nonpositive_accepted_no_chunks_witness :
    ((-3 : Int) ≤ 0) ∧
      ((∃ L, initLoader "p" "tok" "secret" FilterType.MEDIAID "0_abc123" "u"
          none (-3) = Except.ok L ∧ L.chunkMinutes = -3) ∧
        chunkSections (-3) cuePair = []) :=
  ⟨by norm_num,
    c4_nonpositive_accepted_no_chunks "p" "tok" "secret" FilterType.MEDIAID
      "0_abc123" "u" none (-3) cuePair (by decide) (by decide) (by decide)
      (by decide) (by decide) (by norm_num)⟩

def media5 : MediaEntry := { id := "0_m5", name := "n5" }

def asset5a : CaptionAsset :=
  { id := "cap1", languageCode := "en", format := KalturaCaptionType.SRT }

def asset5b : CaptionAsset :=
  { id := "cap2", languageCode := "en", format := KalturaCaptionType.SRT }

def loader5 : KalturaCaptionLoader :=
  { mediaFilter := MediaFilter.idEqual "0_m5", chunkMinutes := 2,
    urlTemplate := "u", languages := Languages.iter ["en"] }

def collab5 : Collaborators :=
  { mediaList := [media5]
    captionAssetsOf := fun _ => [asset5a, asset5b]
    getUrl := fun _ => "https://cdn.example/c"
    httpGet := fun _ => "raw"
    parseSrt := fun _ => [{ start := 30000, end_ := 32000, text := "line" }] }

/-- C5 (code bug): the language filter does NOT behave identically on
every track.  `__init__` stores `self.languages = map(str.lower,
languages)`, a one-shot iterator, and every `in` membership test
consumes it.  With allow-list `["en"]` and two tracks both tagged `en`,
the first track is retained but the identical second track is dropped
(the iterator is already exhausted); processed alone from a fresh
state, that same second track IS retained. -/
theorem c5_language_filter_stateful :
    ((processAssets loader5 collab5 media5 [asset5a, asset5b]
        (Languages.iter ["en"])).1.map Document.caption_id = ["cap1"]) ∧
      ((processAssets loader5 collab5 media5 [asset5b]
        (Languages.iter ["en"])).1.map Document.caption_id = ["cap2"]) := by
  decide

def asset6 : CaptionAsset :=
  { id := "cap3", languageCode := "en", format := KalturaCaptionType.DFXP }

/-- C6: once a caption track has passed the language filter, the format
gate decides everything: a track whose format tag is not SRT
contributes no documents and is skipped silently — processing continues
with the remaining tracks from the post-language-check state, and no
error path exists (the embedding is total) — while an SRT track
contributes exactly its windowed documents. -/
theorem c6_format_filter (L : KalturaCaptionLoader) (collab : Collaborators)
    (m : MediaEntry) (a : CaptionAsset) (langs langs2 : Languages)
    (rest : List CaptionAsset) (h : languageCheck a langs = (true, langs2)) :
    (a.format ≠ KalturaCaptionType.SRT →
      processAssets L collab m (a :: rest) langs =
        processAssets L collab m rest langs2) ∧
    (a.format = KalturaCaptionType.SRT →
      processAssets L collab m (a :: rest) langs =
        (trackDocuments L collab m a ++ (processAssets L collab m rest langs2).1,
          (processAssets L collab m rest langs2).2)) := by
  constructor <;> intro hfmt <;> simp [processAssets, h, hfmt]

/-- C6, witness: a DFXP track (language-filter pass via the all-languages
sentinel) is skipped and the run continues with the remaining (empty)
track list. -/
theorem c6_format_filter_witness :
    languageCheck asset6 Languages.all = (true, Languages.all) ∧
      processAssets loader5 collab5 media5 [asset6] Languages.all =
        processAssets loader5 collab5 media5 [] Languages.all :=
  ⟨by decide,
    (c6_format_filter loader5 collab5 media5 asset6 Languages.all Languages.all
      [] (by decide)).1 (by decide)⟩

def loader7 : KalturaCaptionLoader :=
  { mediaFilter := MediaFilter.idEqual "0_abc123", chunkMinutes := 3,
    urlTemplate := "https://x.test/{mediaId}?t={startSeconds}",
    languages := Languages.all }

def collab7 : Collaborators :=
  { mediaList := [media7]
    captionAssetsOf := fun _ => [asset7]
    getUrl := fun _ => "https://cdn.example/cap7"
    httpGet := fun _ => "raw"
    parseSrt := fun _ => [cue7] }

def doc7 : Document := mkDocument loader7.urlTemplate media7 asset7 [cue7]

/-- C7: every emitted document has as its source URL the caller
template with the media id substituted for the mediaId field and the
start offset of the first selected cue of its window, truncated to
whole seconds (`timestamp.ordinal // 1000`), substituted for the
startSeconds field.  (The witness instantiates the example of the
claim: template `https://x.test/` + mediaId field + `?t=` +
startSeconds field, media id `0_abc123`, chunk starting at 125.7s,
giving `https://x.test/0_abc123?t=125`.) -/
theorem c7_source_url (L : KalturaCaptionLoader) (collab : Collaborators)
    (m : MediaEntry) (a : CaptionAsset) (d : Document)
    (h : d ∈ trackDocuments L collab m a) :
    ∃ sec ∈ chunkSections L.chunkMinutes (trackCaptions collab a),
      sec ≠ [] ∧
        d.source = formatUrl L.urlTemplate m.id ((sec.headD nullItem).start / 1000) := by
  obtain ⟨sec, hsec, rfl⟩ := List.mem_map.mp h
  exact ⟨sec, hsec, (mem_chunkSections hsec).1, rfl⟩

/-- C7, witness: the concrete example of the claim — media id
`0_abc123`, a chunk starting at 125.7s (ordinal 125700 ms), and the
template of `loader7` give source `https://x.test/0_abc123?t=125`. -/
theorem c7_source_url_witness :
    doc7 ∈ trackDocuments loader7 collab7 media7 asset7 ∧
      doc7.source = "https://x.test/0_abc123?t=125" ∧
      (∃ sec ∈ chunkSections loader7.chunkMinutes (trackCaptions collab7 asset7),
        sec ≠ [] ∧
          doc7.source =
            formatUrl loader7.urlTemplate media7.id ((sec.headD nullItem).start / 1000)) :=
  ⟨by decide, by decide,
    c7_source_url loader7 collab7 media7 asset7 doc7 (by decide)⟩

def loader8 : KalturaCaptionLoader :=
  { mediaFilter := MediaFilter.idEqual "0_abc123", chunkMinutes := 2,
    urlTemplate := "u", languages := Languages.all }

def collab8 : Collaborators :=
  { mediaList := [media7]
    captionAssetsOf := fun _ => [asset7]
    getUrl := fun _ => "https://cdn.example/cap8"
    httpGet := fun _ => "raw"
    parseSrt := fun _ => [cue8a, cue8b] }

def doc8 : Document := mkDocument loader8.urlTemplate media7 asset7 [cue8a, cue8b]

/-- C8: every emitted document carries as its text the ordered
concatenation of the texts of the cues selected for its window, joined
exactly as pysrt `SubRipFile.text` joins them (newline-separated), and
its start offset — rendered into the timestamp metadata — is the start
offset of the FIRST selected cue of that window. -/
theorem c8_chunk_text_and_start (L : KalturaCaptionLoader)
    (collab : Collaborators) (m : MediaEntry) (a : CaptionAsset) (d : Document)
    (h : d ∈ trackDocuments L collab m a) :
    ∃ sec ∈ chunkSections L.chunkMinutes (trackCaptions collab a),
      sec ≠ [] ∧
        d.page_content = String.intercalate "\n" (sec.map SubRipItem.text) ∧
        d.timestamp = timeNoMs ((sec.headD nullItem).start) := by
  obtain ⟨sec, hsec, rfl⟩ := List.mem_map.mp h
  exact ⟨sec, hsec, (mem_chunkSections hsec).1, rfl, rfl⟩

/-- C8, witness: two cues (0:05 "hello" and 1:50 "world") fall into
window 0 of a 2-minute chunking; the emitted document joins them as
`hello`-newline-`world` and stamps the start of the first cue. -/
theorem c8_chunk_text_and_start_witness :
    doc8 ∈ trackDocuments loader8 collab8 media7 asset7 ∧
      doc8.page_content = "hello\nworld" ∧ doc8.timestamp = "00:00:05" ∧
      (∃ sec ∈ chunkSections loader8.chunkMinutes (trackCaptions collab8 asset7),
        sec ≠ [] ∧
          doc8.page_content = String.intercalate "\n" (sec.map SubRipItem.text) ∧
          doc8.timestamp = timeNoMs ((sec.headD nullItem).start)) :=
  ⟨by decide, by decide, by decide,
    c8_chunk_text_and_start loader8 collab8 media7 asset7 doc8 (by decide)⟩

def collab9 : Collaborators :=
  { mediaList := [media7]
    captionAssetsOf := fun _ => [asset7]
    getUrl := fun _ => ""
    httpGet := fun _ => "raw"
    parseSrt := fun _ => [cue8a] }

/-- C9, counterexample: a run in which URL resolution returns NO
location (the empty string) for the selected track.  The loader
performs no validation at all: nothing fails, the fetch is attempted
anyway, and a chunk is emitted — refuting "validates that a playback
location (URL) was actually returned for the track before fetching its
contents, and fails with CaptionUnavailableError if no location was
returned". -/
theorem c9_counterexample :
    collab9.getUrl asset7.id = "" ∧
      (processAssets loader8 collab9 media7 [asset7] Languages.all).1 =
        [mkDocument loader8.urlTemplate media7 asset7 [cue8a]] := by decide

/-- C9, amended: there is no check between URL resolution and content
fetch — the resolver result, even an empty location, is handed directly
to the HTTP fetch and its parsed result is windowed as usual; an
unresolvable location can only surface as an exception raised inside
the collaborators themselves, never as a validation by the loader. -/
theorem c9_location_unchecked (L : KalturaCaptionLoader)
    (collab : Collaborators) (m : MediaEntry) (a : CaptionAsset)
    (h : collab.getUrl a.id = "") :
    trackDocuments L collab m a =
      (chunkSections L.chunkMinutes (collab.parseSrt (collab.httpGet ""))).map
        (mkDocument L.urlTemplate m a) := by
  rw [trackDocuments, trackCaptions, h]

/-- C9, witness: the amended theorem applied to the empty-location
collaborators. -/
theorem c9_location_unchecked_witness :
    collab9.getUrl asset7.id = "" ∧
      trackDocuments loader8 collab9 media7 asset7 =
        (chunkSections loader8.chunkMinutes
            (collab9.parseSrt (collab9.httpGet ""))).map
          (mkDocument loader8.urlTemplate media7 asset7) :=
  ⟨by decide, c9_location_unchecked loader8 collab9 media7 asset7 (by decide)⟩

/-- With an exhausted-empty languages iterator, every track is skipped
(the membership test finds nothing and leaves the state empty). -/
theorem processAssets_iter_nil (L : KalturaCaptionLoader)
    (collab : Collaborators) (m : MediaEntry) (as : List CaptionAsset) :
    processAssets L collab m as (Languages.iter []) = ([], Languages.iter []) := by
  induction as with
  | nil => rfl
  | cons a rest ih => simp [processAssets, languageCheck, consumeContains, ih]

/-- The load fold leaves the accumulator untouched when the languages
state is the empty iterator. -/
theorem loadFold_iter_nil (L : KalturaCaptionLoader) (collab : Collaborators) :
    ∀ (ms : List MediaEntry) (acc : List Document),
      ms.foldl
        (fun acc m =>
          let r := fetchMediaCaption L collab m acc.2
          (acc.1 ++ r.1, r.2))
        (acc, Languages.iter []) = (acc, Languages.iter []) := by
  intro ms
  induction ms with
  | nil => intro acc; rfl
  | cons m ms ih =>
    intro acc
    have hstep : fetchMediaCaption L collab m (Languages.iter []) =
        ([], Languages.iter []) :=
      processAssets_iter_nil L collab m _
    simp only [List.foldl_cons, hstep]
    simpa using ih acc

def loader10 : KalturaCaptionLoader :=
  { mediaFilter := MediaFilter.idEqual "0_abc123", chunkMinutes := 2,
    urlTemplate := "u", languages := Languages.iter [] }

def collab10 : Collaborators :=
  { mediaList := [media7]
    captionAssetsOf := fun _ => [asset7, asset5a]
    getUrl := fun _ => "https://cdn.example/c"
    httpGet := fun _ => "raw"
    parseSrt := fun _ => [cue8a, cue8b] }

/-- C10: a loader constructed with `languages` equal to the empty
sequence (not the `None` sentinel) rejects every caption track of every
media item — the empty `map` iterator can never contain a language
code — so `load()` returns the empty document list no matter how many
tracks and cues the collaborators offer. -/
theorem c10_empty_languages_empty_load (p t v : String) (ft : FilterType)
    (fv u : String) (D : Int) (L : KalturaCaptionLoader)
    (collab : Collaborators)
    (h : initLoader p t v ft fv u (some []) D = Except.ok L) :
    loadDocs L collab = [] := by
  have hlang : L.languages = Languages.iter [] := by
    simp only [initLoader] at h
    split at h
    · exact absurd h (by simp)
    · split at h
      · exact absurd h (by simp)
      · split at h
        · exact absurd h (by simp)
        · rw [Except.ok.injEq] at h
          rw [← h]
  rw [loadDocs, loadState, hlang, loadFold_iter_nil L collab collab.mediaList []]

/-- C10, witness: construction with an empty language list succeeds and
a load over a media entry carrying two SRT tracks with cues still
returns no documents. -/
theorem c10_empty_languages_empty_load_witness :
    initLoader "p" "tok" "secret" FilterType.MEDIAID "0_abc123" "u" (some []) 2 =
      Except.ok loader10 ∧ loadDocs loader10 collab10 = [] :=
  ⟨by rfl,
    c10_empty_languages_empty_load "p" "tok" "secret" FilterType.MEDIAID
      "0_abc123" "u" 2 loader10 collab10 (by rfl)⟩

end LangChainKaltura
